import Mathlib

/-
Verification of the FloatChat demo dashboard (src/app.py).

The script keeps one fixed five-row table of float observations and an
append-only session conversation log. All numeric literals in the table
have exactly one decimal digit, so measurements are embedded exactly as
integers counted in tenths (lat 1.2 becomes 12, salinity 35.1 becomes 351);
dates are year/month/day triples, compared lexicographically exactly as
pandas timestamps compare for calendar dates.
-/

namespace FloatChat

/-- A calendar date, as carried by the `date` column (src/app.py line 14). -/
structure Date where
  year : Nat
  month : Nat
  day : Nat
deriving DecidableEq, Repr

/-- Timestamp comparison restricted to calendar dates: lexicographic on
year, month, day, mirroring the `>=` / `<=` comparisons on the pandas
datetime column (src/app.py lines 144-145). -/
def dateLe (a b : Date) : Bool :=
  a.year < b.year ||
    (a.year == b.year &&
      (a.month < b.month || (a.month == b.month && a.day ≤ b.day)))

/-- One row of `sample_data` (src/app.py lines 10-17). The four float
columns hold exact one-decimal literals, embedded as integers in tenths. -/
structure Row where
  float_id : String
  lat : Int
  lon : Int
  date : Date
  salinity : Int
  temperature : Int
deriving DecidableEq, Repr

/-- Row ARGO001 of `sample_data`: lat 1.2, lon 33.5, 2023-03-05, salinity 35.1, temperature 28.3. -/
def argo1 : Row := ⟨"ARGO001", 12, 335, ⟨2023, 3, 5⟩, 351, 283⟩

/-- Row ARGO002 of `sample_data`: lat -2.1, lon 35.0, 2023-03-12, salinity 34.9, temperature 27.8. -/
def argo2 : Row := ⟨"ARGO002", -21, 350, ⟨2023, 3, 12⟩, 349, 278⟩

/-- Row ARGO003 of `sample_data`: lat 0.5, lon 72.8, 2023-03-20, salinity 35.3, temperature 28.5. -/
def argo3 : Row := ⟨"ARGO003", 5, 728, ⟨2023, 3, 20⟩, 353, 285⟩

/-- Row ARGO004 of `sample_data`: lat 15.0, lon 60.1, 2023-04-02, salinity 36.1, temperature 26.4. -/
def argo4 : Row := ⟨"ARGO004", 150, 601, ⟨2023, 4, 2⟩, 361, 264⟩

/-- Row ARGO005 of `sample_data`: lat -4.5, lon 50.0, 2023-03-25, salinity 34.8, temperature 28.0. -/
def argo5 : Row := ⟨"ARGO005", -45, 500, ⟨2023, 3, 25⟩, 348, 280⟩

/-- The fixed `sample_data` table (src/app.py lines 10-17), in source row order. -/
def sampleData : List Row := [argo1, argo2, argo3, argo4, argo5]

/-- Message role: the `"role"` field of a session message, `"user"` or
`"assistant"` (src/app.py lines 54, 58, 121). -/
inductive Role
  | user
  | assistant
deriving DecidableEq, Repr

/-- A conversation message: a role tag and a content string, as stored in
`st.session_state["messages"]` (src/app.py lines 54, 58). -/
structure Message where
  role : Role
  content : String
deriving DecidableEq, Repr

/-- The conversation log starts empty (src/app.py lines 50-51, 97-98). -/
def emptyLog : List Message := []

/-- `st.session_state["messages"].append(msg)`: add one message at the end. -/
def append (log : List Message) (m : Message) : List Message :=
  log ++ [m]

/-- Reading the log for display iterates the stored list in order without
changing it (src/app.py lines 101-103, 195-197). -/
def snapshot (log : List Message) : List Message :=
  log

/-- The demo reply template (src/app.py line 57), with the selected role
and the typed query interpolated. -/
def demoReply (userRole userQuery : String) : String :=
  "🤖 (Demo) Hi " ++ userRole ++ ", here\x27s some placeholder data for: " ++ userQuery

/-- The Ask button handler (src/app.py lines 47-58): append the user
message, then append the templated assistant reply. No emptiness check is
performed on the query text. -/
def submitQuery (userRole userQuery : String) (log : List Message) : List Message :=
  append (append log ⟨.user, userQuery⟩) ⟨.assistant, demoReply userRole userQuery⟩

/-- The month filter behind the March 2023 quick query,
`sample_data[sample_data["date"].dt.month == 3]` (src/app.py line 122):
keep the rows whose month equals the given month, in order. The source
mask tests only `dt.month`, so the year argument is unused. -/
def filterByMonth (year month : Nat) (rows : List Row) : List Row :=
  rows.filter (fun r => r.date.month == month)

/-- The Explore Data range filter (src/app.py lines 143-146): keep the
rows whose date satisfies both `date >= start` and `date <= stop`. -/
def filterByDateRange (start stop : Date) (rows : List Row) : List Row :=
  rows.filter (fun r => dateLe start r.date && dateLe r.date stop)

/-- `sample_data.set_index("date")["salinity"]` (src/app.py line 125):
the salinity series indexed by date, in row order. -/
def salinitySeries (rows : List Row) : List (Date × Int) :=
  rows.map (fun r => (r.date, r.salinity))

/-- `sample_data.set_index("date")["temperature"]` (src/app.py line 128):
the temperature series indexed by date, in row order. -/
def temperatureSeries (rows : List Row) : List (Date × Int) :=
  rows.map (fun r => (r.date, r.temperature))

/-- The closed set of quick-query topics (src/app.py lines 120-128). -/
inductive Topic
  | marchFloats
  | salinityProfiles
  | temperatureTrends
deriving DecidableEq, Repr

/-- The view displayed next to a quick-query reply: a dataframe of rows or
a single-column series indexed by date. -/
inductive View
  | table (rows : List Row)
  | series (points : List (Date × Int))
deriving DecidableEq, Repr

/-- The fixed assistant reply of each quick-query button
(src/app.py lines 121, 124, 127). -/
def quickReply : Topic → String
  | .marchFloats => "Showing floats for March 2023 (Demo)."
  | .salinityProfiles => "Showing salinity profiles (Demo)."
  | .temperatureTrends => "Showing temperature trends (Demo)."

/-- The filtered view each quick-query button displays
(src/app.py lines 122, 125, 128). -/
def quickView (t : Topic) (rows : List Row) : View :=
  match t with
  | .marchFloats => .table (rows.filter (fun r => r.date.month == 3))
  | .salinityProfiles => .series (salinitySeries rows)
  | .temperatureTrends => .series (temperatureSeries rows)

/-- A quick-query button press (src/app.py lines 120-128): append the
fixed assistant reply to the log and display the associated view. -/
def submitQuickQuery (t : Topic) (rows : List Row) (log : List Message) :
    List Message × View :=
  (append log ⟨.assistant, quickReply t⟩, quickView t rows)

/-- The decimal digit character for a value below ten. -/
def digitChar (n : Nat) : Char :=
  Char.ofNat (48 + n)

/-- Whether a character is a decimal digit. -/
def isDigitChar (c : Char) : Bool :=
  48 ≤ c.toNat && c.toNat ≤ 57

def natCharsAux : Nat → Nat → List Char → List Char
  | 0, _, acc => acc
  | fuel + 1, n, acc =>
      if n < 10 then digitChar n :: acc
      else natCharsAux fuel (n / 10) (digitChar (n % 10) :: acc)

/-- Decimal digits of a natural number, most significant first. -/
def natChars (n : Nat) : List Char :=
  natCharsAux (n + 1) n []

/-- Two-digit zero-padded field, as pandas prints months and days. -/
def pad2 (n : Nat) : List Char :=
  if n < 10 then '0' :: natChars n else natChars n

/-- ISO date text `YYYY-MM-DD`, the CSV form of the datetime column. -/
def dateChars (d : Date) : List Char :=
  natChars d.year ++ '-' :: pad2 d.month ++ '-' :: pad2 d.day

/-- Decimal text of a tenths-scaled value, e.g. 351 prints as `35.1` and
-21 prints as `-2.1`, the CSV form of the one-decimal float literals. -/
def tenthsChars (v : Int) : List Char :=
  (if v < 0 then ['-'] else [])
    ++ natChars (v.natAbs / 10) ++ '.' :: [digitChar (v.natAbs % 10)]

/-- Split a character list at every occurrence of the separator. -/
def splitCharAux (sep : Char) : List Char → List Char → List (List Char)
  | [], acc => [acc.reverse]
  | c :: cs, acc =>
      if c = sep then acc.reverse :: splitCharAux sep cs []
      else splitCharAux sep cs (c :: acc)

def splitChar (sep : Char) (cs : List Char) : List (List Char) :=
  splitCharAux sep cs []

def parseNatAux : List Char → Nat → Option Nat
  | [], acc => some acc
  | c :: cs, acc =>
      if isDigitChar c then parseNatAux cs (acc * 10 + (c.toNat - 48))
      else none

/-- Parse a non-empty run of decimal digits. -/
def parseNatChars : List Char → Option Nat
  | [] => none
  | cs => parseNatAux cs 0

/-- Parse a one-decimal number such as `35.1` or `-2.1` back to tenths. -/
def parseTenthsChars (cs : List Char) : Option Int :=
  let sign : Int := if cs.head? = some '-' then -1 else 1
  let body := if cs.head? = some '-' then cs.tail else cs
  match splitChar '.' body with
  | [intPart, [fracDigit]] =>
      match parseNatChars intPart with
      | some ip =>
          if isDigitChar fracDigit then
            some (sign * (ip * 10 + (fracDigit.toNat - 48)))
          else none
      | none => none
  | _ => none

/-- Parse an ISO `YYYY-MM-DD` date. -/
def parseDateChars (cs : List Char) : Option Date :=
  match splitChar '-' cs with
  | [y, m, d] =>
      match parseNatChars y, parseNatChars m, parseNatChars d with
      | some y, some m, some d => some ⟨y, m, d⟩
      | _, _, _ => none
  | _ => none

/-- The CSV header line written by `filtered.to_csv(index=False)`
(src/app.py line 157): the column names in dataframe order. -/
def csvHeader : List Char :=
  "float_id,lat,lon,date,salinity,temperature".data

/-- One CSV data line for a row, fields comma-separated in column order. -/
def rowChars (r : Row) : List Char :=
  r.float_id.data ++ ',' :: tenthsChars r.lat ++ ',' :: tenthsChars r.lon
    ++ ',' :: dateChars r.date ++ ',' :: tenthsChars r.salinity
    ++ ',' :: tenthsChars r.temperature

/-- CSV export of a row list, as `to_csv(index=False)` produces it: the
header line, then one line per row in order, each line newline-terminated. -/
def toCsv (rows : List Row) : String :=
  ⟨csvHeader ++ '\x0a' :: (rows.map (fun r => rowChars r ++ ['\x0a'])).flatten⟩

/-- Parse one CSV data line back to a row. -/
def parseRowChars (cs : List Char) : Option Row :=
  match splitChar ',' cs with
  | [fid, la, lo, d, sa, te] =>
      match parseTenthsChars la, parseTenthsChars lo, parseDateChars d,
          parseTenthsChars sa, parseTenthsChars te with
      | some la, some lo, some d, some sa, some te =>
          some ⟨⟨fid⟩, la, lo, d, sa, te⟩
      | _, _, _, _, _ => none
  | _ => none

/-- Parse a CSV export back to its rows: require the exact header, then
parse every newline-terminated data line. -/
def parseCsv (s : String) : Option (List Row) :=
  match splitChar '\x0a' s.data with
  | header :: rest =>
      if header = csvHeader then
        match rest.getLast? with
        | some [] => rest.dropLast.mapM parseRowChars
        | _ => none
      else none
  | [] => none

/-- The error taxonomy of the dataset queries: the only failure is a
requested column name that does not exist in the dataset. -/
inductive DataError
  | invalidField (name : String)
deriving DecidableEq, Repr

/-- A cell value of the dataset: a string id, a tenths-scaled number, or a date. -/
inductive Value
  | s (v : String)
  | n (v : Int)
  | d (v : Date)
deriving DecidableEq, Repr

/-- The column names of `sample_data`, in dataframe order (src/app.py lines 10-17). -/
def datasetColumns : List String :=
  ["float_id", "lat", "lon", "date", "salinity", "temperature"]

/-- The cell of a row in a named valid column. -/
def cellValue (r : Row) (c : String) : Value :=
  if c = "float_id" then .s r.float_id
  else if c = "lat" then .n r.lat
  else if c = "lon" then .n r.lon
  else if c = "date" then .d r.date
  else if c = "salinity" then .n r.salinity
  else .n r.temperature

/-- Modelled from the spec: `select_columns(columns)` projects the dataset
to date plus the requested columns, preserving row order, and fails with
an InvalidField error when a requested column name does not exist in the
dataset. The src only reaches column selection through a selectbox fixed
to salinity or temperature (src/app.py lines 141, 150), so the
invalid-name path exists only in the spec (sections 4.2 and 7), not in src. -/
def selectColumns (cols : List String) (rows : List Row) :
    Except DataError (List (Date × List Value)) :=
  match cols.find? (fun c => !(datasetColumns.contains c)) with
  | some bad => .error (.invalidField bad)
  | none => .ok (rows.map (fun r => (r.date, cols.map (cellValue r))))

/-- The session state the script touches: the module-level dataset and the
conversation log in `st.session_state` (src/app.py lines 10-17, 50-58). -/
structure AppState where
  dataset : List Row
  messages : List Message
deriving DecidableEq, Repr

/-- One user interaction with the page: the Ask button, a quick-query
button, the Explore Data range filter, a column selection, or the CSV
download (src/app.py lines 47-58, 120-128, 137-157). -/
inductive Interaction
  | ask (userRole userQuery : String)
  | quickQuery (t : Topic)
  | exploreRange (start stop : Date)
  | selectCols (cols : List String)
  | exportCsv (start stop : Date)
deriving DecidableEq, Repr

/-- The state change of one interaction. Only the two chat handlers write
to the log; the Explore Data filters, the column selection and the CSV
download compute views from the dataset without assigning any state, and
no handler assigns `sample_data` (no write path exists in src). -/
def step (a : Interaction) (st : AppState) : AppState :=
  match a with
  | .ask role text => ⟨st.dataset, submitQuery role text st.messages⟩
  | .quickQuery t => ⟨st.dataset, (submitQuickQuery t st.dataset st.messages).1⟩
  | .exploreRange _ _ => st
  | .selectCols _ => st
  | .exportCsv _ _ => st

/-- Run a sequence of interactions from a state. -/
def runAll (st : AppState) (acts : List Interaction) : AppState :=
  acts.foldl (fun s a => step a s) st

/-- The initial state: the five-row dataset and an empty log. -/
def initState : AppState :=
  ⟨sampleData, emptyLog⟩

lemma foldl_append_eq (msgs : List Message) :
    ∀ acc : List Message, List.foldl append acc msgs = acc ++ msgs := by
  induction msgs with
  | nil => intro acc; simp [emptyLog]
  | cons m ms ih =>
      intro acc
      simp [List.foldl, append, ih]

/-- C1: every sequence of appends in a session is returned by snapshot
exactly, in call order, with nothing lost, duplicated, mutated or removed. -/
theorem snapshot_returns_appends_in_order (msgs : List Message) :
    snapshot (List.foldl append emptyLog msgs) = msgs := by
  simp [snapshot, foldl_append_eq, emptyLog]

/-- C2: for any role and non-empty text, submitQuery appends exactly the
user message with that text followed by the assistant message holding the
fixed template with role and text interpolated; it is a pure function and
always produces this result. -/
theorem submitQuery_appends_user_then_reply
    (userRole userQuery : String) (log : List Message) (h : userQuery ≠ "") :
    submitQuery userRole userQuery log
      = log ++ [⟨.user, userQuery⟩,
          ⟨.assistant,
            "🤖 (Demo) Hi " ++ userRole ++ ", here\x27s some placeholder data for: " ++ userQuery⟩] := by
  simp [submitQuery, append, demoReply]

/-- C2 witness: the theorem instantiated at role Student and text hello. -/
theorem submitQuery_appends_user_then_reply_witness :
    submitQuery "Student" "hello" []
      = [⟨.user, "hello"⟩,
         ⟨.assistant, "🤖 (Demo) Hi Student, here\x27s some placeholder data for: hello"⟩] := by
  have h := submitQuery_appends_user_then_reply "Student" "hello" [] (by decide)
  simpa using h

/-- C9: the empty string is accepted like any other text: the handler
appends a user message with empty content and an assistant reply whose
template interpolates the empty string. -/
theorem empty_query_accepted (userRole : String) (log : List Message) :
    submitQuery userRole "" log
      = log ++ [⟨.user, ""⟩,
          ⟨.assistant, "🤖 (Demo) Hi " ++ userRole ++ ", here\x27s some placeholder data for: "⟩] := by
  simp [submitQuery, append, demoReply]

/-- C3: on the sample dataset, the March filter and the date-range filter
over [2023-03-01, 2023-03-31] both return exactly the four rows dated
2023-03-05, 2023-03-12, 2023-03-20, 2023-03-25, excluding ARGO004; the
range filter keeps a row exactly when its date lies within both inclusive
endpoints, and a range matching no rows yields the empty list, not an
error. -/
theorem march_filters_agree_on_sample :
    filterByMonth 2023 3 sampleData = [argo1, argo2, argo3, argo5]
      ∧ filterByDateRange ⟨2023, 3, 1⟩ ⟨2023, 3, 31⟩ sampleData = [argo1, argo2, argo3, argo5]
      ∧ (∀ (start stop : Date) (rows : List Row) (r : Row),
          r ∈ filterByDateRange start stop rows
            ↔ r ∈ rows ∧ dateLe start r.date = true ∧ dateLe r.date stop = true)
      ∧ filterByDateRange ⟨2023, 3, 5⟩ ⟨2023, 3, 25⟩ sampleData = [argo1, argo2, argo3, argo5]
      ∧ filterByDateRange ⟨2025, 1, 1⟩ ⟨2025, 12, 31⟩ sampleData = [] := by
  refine ⟨by decide, by decide, ?_, by decide, by decide⟩
  intro start stop rows r
  simp [filterByDateRange, List.mem_filter, Bool.and_eq_true]

/-- C4: projecting the sample dataset to the salinity series indexed by
date yields exactly five date-salinity pairs, one per source row; and for
any dataset the projection lists the dates in the original row order. -/
theorem salinity_projection_on_sample :
    salinitySeries sampleData
      = [(⟨2023, 3, 5⟩, 351), (⟨2023, 3, 12⟩, 349), (⟨2023, 3, 20⟩, 353),
         (⟨2023, 4, 2⟩, 361), (⟨2023, 3, 25⟩, 348)]
      ∧ (salinitySeries sampleData).length = 5
      ∧ (∀ rows : List Row, (salinitySeries rows).map Prod.fst = rows.map (fun r => r.date)) := by
  refine ⟨by decide, by decide, ?_⟩
  intro rows
  simp [salinitySeries]

/-- C5: each quick-query press appends exactly one assistant message with
the fixed content of that topic and selects the corresponding filtered view;
the salinity-profiles press yields the salinity series over all five rows,
the March press yields the four March rows, the temperature press yields
the temperature series. -/
theorem quick_query_appends_one_assistant :
    (∀ (t : Topic) (log : List Message),
        (submitQuickQuery t sampleData log).1 = log ++ [⟨.assistant, quickReply t⟩])
      ∧ (∀ log : List Message,
          submitQuickQuery .salinityProfiles sampleData log
            = (log ++ [⟨.assistant, "Showing salinity profiles (Demo)."⟩],
               .series [(⟨2023, 3, 5⟩, 351), (⟨2023, 3, 12⟩, 349), (⟨2023, 3, 20⟩, 353),
                        (⟨2023, 4, 2⟩, 361), (⟨2023, 3, 25⟩, 348)]))
      ∧ (∀ log : List Message,
          (submitQuickQuery .marchFloats sampleData log).2 = .table [argo1, argo2, argo3, argo5])
      ∧ (∀ log : List Message,
          (submitQuickQuery .temperatureTrends sampleData log).2
            = .series [(⟨2023, 3, 5⟩, 283), (⟨2023, 3, 12⟩, 278), (⟨2023, 3, 20⟩, 285),
                       (⟨2023, 4, 2⟩, 264), (⟨2023, 3, 25⟩, 280)]) := by
  exact ⟨fun t log => rfl, fun log => rfl, fun log => rfl, fun log => rfl⟩

/-- C10: the March quick-query filter selects rows by month number alone,
ignoring the year: a row is kept exactly when its month equals 3, the
year argument never changes the result, and a row dated March of another
year (2024-03-15) is returned. -/
theorem march_filter_ignores_year :
    (∀ (rows : List Row) (r : Row),
        r ∈ filterByMonth 2023 3 rows ↔ r ∈ rows ∧ r.date.month = 3)
      ∧ (∀ (y y2 month : Nat) (rows : List Row),
          filterByMonth y month rows = filterByMonth y2 month rows)
      ∧ filterByMonth 2023 3 [⟨"TEST2024", 0, 0, ⟨2024, 3, 15⟩, 0, 0⟩]
          = [⟨"TEST2024", 0, 0, ⟨2024, 3, 15⟩, 0, 0⟩] := by
  refine ⟨?_, fun _ _ _ _ => rfl, by decide⟩
  intro rows r
  simp [filterByMonth, List.mem_filter]

/-- C6: serializing the result of the March 2023 filter to CSV and
parsing that CSV back yields exactly the same four rows with identical
field values, floats included: parse is a left inverse of export on this
filtered dataset. -/
theorem csv_roundtrip_march_filter :
    parseCsv (toCsv (filterByMonth 2023 3 sampleData))
      = some (filterByMonth 2023 3 sampleData) := by
  decide

lemma step_preserves_dataset (a : Interaction) (st : AppState) :
    (step a st).dataset = st.dataset := by
  cases a <;> rfl

lemma runAll_preserves_dataset (acts : List Interaction) (st : AppState) :
    (runAll st acts).dataset = st.dataset := by
  induction acts generalizing st with
  | nil => rfl
  | cons a as ih => exact (ih (step a st)).trans (step_preserves_dataset a st)

/-- C7: the dataset is never mutated: after every sequence of
interactions it equals its initial value; and an interaction whose column
selection fails leaves the whole state, dataset and log alike, unchanged. -/
theorem dataset_immutable
    (acts : List Interaction) (st : AppState) (cols : List String) (e : DataError)
    (hfail : selectColumns cols st.dataset = .error e) :
    (runAll st acts).dataset = st.dataset ∧ step (.selectCols cols) st = st :=
  ⟨runAll_preserves_dataset acts st, rfl⟩

/-- C7 witness: the theorem at the initial state, a three-interaction
sequence, and the failing column list containing bogus. -/
theorem dataset_immutable_witness :
    (runAll initState
        [.ask "Student" "hello", .quickQuery .salinityProfiles,
         .exploreRange ⟨2023, 3, 1⟩ ⟨2023, 3, 31⟩]).dataset = initState.dataset
      ∧ step (.selectCols ["bogus"]) initState = initState :=
  dataset_immutable
    [.ask "Student" "hello", .quickQuery .salinityProfiles,
     .exploreRange ⟨2023, 3, 1⟩ ⟨2023, 3, 31⟩]
    initState ["bogus"] (.invalidField "bogus") rfl

/-- C8: whenever a requested column list contains a name that is not a
dataset column, selectColumns fails with an InvalidField error naming
such a column, surfaced to the caller; and when every requested name is a
dataset column it succeeds with the projection, so no other error
condition exists. -/
theorem selectColumns_invalid_field
    (cols : List String) (rows : List Row) (bad : String)
    (hmem : bad ∈ cols) (hbad : bad ∉ datasetColumns) :
    (∃ b, b ∈ cols ∧ b ∉ datasetColumns
        ∧ selectColumns cols rows = .error (.invalidField b))
      ∧ (∀ (cols2 : List String), (∀ c ∈ cols2, c ∈ datasetColumns) →
          selectColumns cols2 rows
            = .ok (rows.map (fun r => (r.date, cols2.map (cellValue r))))) := by
  constructor
  · have hfind : (cols.find? (fun c => !(datasetColumns.contains c))).isSome := by
      rw [List.find?_isSome]
      exact ⟨bad, hmem, by simpa using hbad⟩
    obtain ⟨b, hb⟩ := Option.isSome_iff_exists.mp hfind
    refine ⟨b, List.mem_of_find?_eq_some hb, ?_, ?_⟩
    · have := List.find?_some hb
      simpa using this
    · unfold selectColumns
      rw [hb]
  · intro cols2 hall
    have hnone : cols2.find? (fun c => !(datasetColumns.contains c)) = none := by
      rw [List.find?_eq_none]
      intro c hc
      simpa using hall c hc
    unfold selectColumns
    rw [hnone]

/-- C8 witness: the theorem at the list containing salinity and bogus on
the sample dataset, with the success branch evaluated at salinity alone. -/
theorem selectColumns_invalid_field_witness :
    (∃ b, b ∈ ["salinity", "bogus"] ∧ b ∉ datasetColumns
        ∧ selectColumns ["salinity", "bogus"] sampleData = .error (.invalidField b))
      ∧ selectColumns ["salinity"] sampleData
          = .ok (sampleData.map (fun r => (r.date, [.n r.salinity]))) := by
  have h := selectColumns_invalid_field ["salinity", "bogus"] sampleData "bogus"
    (by decide) (by decide)
  exact ⟨h.1, by simpa [cellValue] using h.2 ["salinity"] (by decide)⟩

end FloatChat
